import Mathlib

/-!
Shallow embedding of `src/libraries/serial_ports/simple_uart.c`.

The C file manages six UART bus slots through three global arrays
(`initialized[6]`, `fd[6]`, and the fixed `paths[6]`), and exposes
`initialize_uart`, `close_uart`, `get_uart_fd`, `flush_uart`,
`uart_send_bytes`, `uart_send_byte` and `uart_read_bytes`.

Modelling choices:
* The registry state (`UartState`) carries the two mutable arrays as
  functions `Fin 6 → _`.  In addition, each slot records whether the file
  handle stored in `fdArr` currently refers to an open OS file
  (`handleValid`): a successful `open` makes it valid, `close` makes it
  invalid, a failed `open` stores a negative value which is invalid.
* System calls (`open`, `cfsetispeed`, `cfsetospeed`, `tcsetattr`,
  `tcflush`, `write`, `select`, `read`) are outcomes supplied by an
  environment value; the C code only inspects their integer results.
* Every operation additionally returns the list of I/O system calls it
  performed (`IOOp`), so that "performs no I/O" claims are statable.
* The read loop of `uart_read_bytes` is driven by a list of `Step`s,
  one per loop iteration: the value of `get_state()` observed at the
  loop head, the time `select` spends waiting (in microseconds), and
  the outcome of `select` (error with or without `errno == EINTR`,
  timeout, or readable together with the result of the ensuing `read`).
  `select` never sleeps longer than the timeout it is handed, and on a
  pure timeout it consumes the whole remaining budget; the Linux
  `select` decrements the `timeval` in place by the time elapsed, which
  the model reflects by passing the decremented budget to the next
  iteration.  `read(fd, buf+bytes_read, bytes_left)` returns at most
  `bytes_left` bytes, which the model reflects with a `min`.
-/

namespace SimpleUart

/-- `#define MIN_BUS 0` -/
def MIN_BUS : Int := 0

/-- `#define MAX_BUS 5` -/
def MAX_BUS : Int := 5

/-- The registry slot arrays `initialized[6]` / `fd[6]`, plus whether the
stored handle currently refers to an open OS file. -/
structure UartState where
  initialized : Fin 6 → Bool
  fdArr : Fin 6 → Int
  handleValid : Fin 6 → Bool

/-- Array-cell update for the `Bool` arrays. -/
def setB (f : Fin 6 → Bool) (i : Fin 6) (v : Bool) : Fin 6 → Bool :=
  fun j => if j = i then v else f j

/-- Array-cell update for the `Int` array `fd`. -/
def setI (f : Fin 6 → Int) (i : Fin 6) (v : Int) : Fin 6 → Int :=
  fun j => if j = i then v else f j

/-- Index into the six-slot arrays; only used after the range guard
`bus < MIN_BUS || bus > MAX_BUS` has passed, where `bus.toNat % 6 = bus.toNat`. -/
def busFin (bus : Int) : Fin 6 := ⟨bus.toNat % 6, Nat.mod_lt _ (by omega)⟩

/-- The I/O system calls an operation can perform, for the purpose of the
"performs no I/O" properties. -/
inductive IOOp
  | openCall
  | closeCall
  | configCall
  | flushCall
  | selectCall
  | readCall
  | writeCall
deriving DecidableEq, Repr

/-- The `switch(baudrate)` of `initialize_uart`: exactly the eighteen
enumerated rates have a `case`; everything else hits `default` and fails. -/
def validBaud (baudrate : Int) : Bool :=
  baudrate == 230400 || baudrate == 115200 || baudrate == 57600 ||
  baudrate == 38400 || baudrate == 19200 || baudrate == 9600 ||
  baudrate == 4800 || baudrate == 2400 || baudrate == 1800 ||
  baudrate == 1200 || baudrate == 600 || baudrate == 300 ||
  baudrate == 200 || baudrate == 150 || baudrate == 134 ||
  baudrate == 110 || baudrate == 75 || baudrate == 50

/-- Outcomes of the system calls made by `initialize_uart`: the result of
`open` (the new descriptor, or negative on failure) and the results of
`cfsetispeed`, `cfsetospeed`, `tcsetattr` and `tcflush` (negative on
failure). -/
structure InitEnv where
  openRet : Int
  cfsetispeedRet : Int
  cfsetospeedRet : Int
  tcsetattrRet : Int
  tcflushRet : Int

/-- `int close_uart(int bus)`: range-check the bus; if the slot is not
initialized return 0 immediately; otherwise `close(fd[bus])` and clear the
flag. -/
def close_uart (s : UartState) (bus : Int) : UartState × Int × List IOOp :=
  if bus < MIN_BUS ∨ bus > MAX_BUS then (s, -1, [])
  else if s.initialized (busFin bus) = false then (s, 0, [])
  else
    ({ s with initialized := setB s.initialized (busFin bus) false,
              handleValid := setB s.handleValid (busFin bus) false },
     0, [IOOp.closeCall])

/-- The effect of `fd[bus] = open(paths[bus], O_RDWR | O_NOCTTY)`: the
result is stored into the array before it is checked, and the stored
handle is an open one exactly when `open` returned non-negative. -/
def storeOpenResult (s : UartState) (i : Fin 6) (r : Int) : UartState :=
  { s with fdArr := setI s.fdArr i r,
           handleValid := setB s.handleValid i (decide (0 ≤ r)) }

/-- The effect of `initialized[bus] = 1`. -/
def markInitialized (s : UartState) (i : Fin 6) : UartState :=
  { s with initialized := setB s.initialized i true }

/-- The part of `initialize_uart` after the baud-rate switch and the
`close_uart` call: `open` (result checked after the store), then
`cfsetispeed`/`cfsetospeed` on the local `termios` struct (not I/O),
then `tcsetattr`, then on full success `initialized[bus] = 1` and
`flush_uart`. -/
def openAndConfigure (env : InitEnv) (s1 : UartState) (io1 : List IOOp)
    (i : Fin 6) : UartState × Int × List IOOp :=
  if env.openRet < 0 then
    (storeOpenResult s1 i env.openRet, -1, io1 ++ [IOOp.openCall])
  else if env.cfsetispeedRet < 0 then
    (storeOpenResult s1 i env.openRet, -1, io1 ++ [IOOp.openCall])
  else if env.cfsetospeedRet < 0 then
    (storeOpenResult s1 i env.openRet, -1, io1 ++ [IOOp.openCall])
  else if env.tcsetattrRet < 0 then
    (storeOpenResult s1 i env.openRet, -1,
     io1 ++ [IOOp.openCall, IOOp.configCall])
  else
    (markInitialized (storeOpenResult s1 i env.openRet) i, 0,
     io1 ++ [IOOp.openCall, IOOp.configCall, IOOp.flushCall])

/-- `int initialize_uart(int bus, int baudrate)`: range-check the bus, map
the baud rate through the `switch`, close any prior handle, then open and
configure the device. -/
def initialize_uart (env : InitEnv) (s : UartState) (bus baudrate : Int) :
    UartState × Int × List IOOp :=
  if bus < MIN_BUS ∨ bus > MAX_BUS then (s, -1, [])
  else if validBaud baudrate = false then (s, -1, [])
  else openAndConfigure env (close_uart s bus).1 (close_uart s bus).2.2 (busFin bus)

/-- `int get_uart_fd(int bus)`: returns `fd[bus]` once initialized, `-1`
otherwise; performs no I/O. -/
def get_uart_fd (s : UartState) (bus : Int) : Int × List IOOp :=
  if bus < MIN_BUS ∨ bus > MAX_BUS then (-1, [])
  else if s.initialized (busFin bus) = false then (-1, [])
  else (s.fdArr (busFin bus), [])

/-- `int flush_uart(int bus)`: range- and initialization-check, then
return `tcflush(fd[bus], TCIFLUSH)` whose result the environment supplies. -/
def flush_uart (tcflushRet : Int) (s : UartState) (bus : Int) : Int × List IOOp :=
  if bus < MIN_BUS ∨ bus > MAX_BUS then (-1, [])
  else if s.initialized (busFin bus) = false then (-1, [])
  else (tcflushRet, [IOOp.flushCall])

/-- `int uart_send_bytes(int bus, int bytes, char* data)`: sanity checks
then a single `write`, whose result the environment supplies. -/
def uart_send_bytes (writeRet : Int) (s : UartState) (bus bytes : Int) :
    Int × List IOOp :=
  if bus < MIN_BUS ∨ bus > MAX_BUS then (-1, [])
  else if bytes < 1 then (-1, [])
  else if s.initialized (busFin bus) = false then (-1, [])
  else (writeRet, [IOOp.writeCall])

/-- `int uart_send_byte(int bus, char data)`: sanity checks then a single
one-byte `write`. -/
def uart_send_byte (writeRet : Int) (s : UartState) (bus : Int) :
    Int × List IOOp :=
  if bus < MIN_BUS ∨ bus > MAX_BUS then (-1, [])
  else if s.initialized (busFin bus) = false then (-1, [])
  else (writeRet, [IOOp.writeCall])

/-- Outcome of one `select` call in the read loop: an error with
`errno == EINTR`, an error with any other `errno`, a timeout (return 0),
or "descriptor readable" together with the result of the `read` call that
follows. -/
inductive SelectOutcome
  | errEINTR
  | errOther
  | timeout
  | ready (readRet : Int)
deriving DecidableEq, Repr

/-- Environment of one iteration of the read loop: the `get_state()`
observation at the loop head (`exiting` means `EXITING`), the
microseconds `select` spends waiting, and its outcome. -/
structure Step where
  exiting : Bool
  elapsed : Nat
  outcome : SelectOutcome
deriving DecidableEq, Repr

/-- What one call of `uart_read_bytes` produces: the C return value, the
final `bytes_read` counter, the total microseconds spent waiting inside
`select` across all iterations, the microseconds left in the `timeval`
budget at return, and the I/O calls performed. -/
structure ReadResult where
  ret : Int
  bytesRead : Int
  totalWait : Nat
  timeoutLeft : Nat
  io : List IOOp
deriving DecidableEq, Repr

/-- The `while((bytes_left>0)&&get_state()!=EXITING)` loop of
`uart_read_bytes`.  An exhausted step list behaves like `get_state()`
returning `EXITING` at the loop head (the environment drives no further
iterations). -/
def readLoop : List Step → Nat → Int → Int → ReadResult
  | steps, tleft, bytes_read, bytes_left =>
    if bytes_left ≤ 0 then ⟨bytes_read, bytes_read, 0, tleft, []⟩
    else
      match steps with
      | [] => ⟨bytes_read, bytes_read, 0, tleft, []⟩
      | step :: rest =>
        if step.exiting then ⟨bytes_read, bytes_read, 0, tleft, []⟩
        else
          match step.outcome with
          | SelectOutcome.errEINTR =>
              ⟨bytes_read, bytes_read, min step.elapsed tleft,
               tleft - min step.elapsed tleft, [IOOp.selectCall]⟩
          | SelectOutcome.errOther =>
              ⟨-1, bytes_read, min step.elapsed tleft,
               tleft - min step.elapsed tleft, [IOOp.selectCall]⟩
          | SelectOutcome.timeout =>
              ⟨bytes_read, bytes_read, tleft, 0, [IOOp.selectCall]⟩
          | SelectOutcome.ready readRet =>
              let e := min step.elapsed tleft
              if readRet < 0 then
                ⟨-1, bytes_read, e, tleft - e, [IOOp.selectCall, IOOp.readCall]⟩
              else
                let got := min readRet bytes_left
                let r := readLoop rest (tleft - e) (bytes_read + got) (bytes_left - got)
                ⟨r.ret, r.bytesRead, e + r.totalWait, r.timeoutLeft,
                 IOOp.selectCall :: IOOp.readCall :: r.io⟩

/-- The timeout budget computed once before the loop, in microseconds:
`timeout.tv_sec = timeout_ms/1000; timeout.tv_usec = (timeout_ms % 1000) * 1000;`
totalling `tv_sec * 1000000 + tv_usec` microseconds. -/
def timeoutBudgetUs (timeout_ms : Int) : Nat :=
  ((timeout_ms / 1000) * 1000000 + (timeout_ms % 1000) * 1000).toNat

/-- `int uart_read_bytes(int bus, int bytes, char* buf, int timeout_ms)`:
sanity checks, then the select/read loop with the depleting timeout
budget, starting from `bytes_read = 0`, `bytes_left = bytes`. -/
def uart_read_bytes (env : List Step) (s : UartState)
    (bus bytes timeout_ms : Int) : ReadResult :=
  if bus < MIN_BUS ∨ bus > MAX_BUS then ⟨-1, 0, 0, 0, []⟩
  else if bytes < 1 then ⟨-1, 0, 0, 0, []⟩
  else if s.initialized (busFin bus) = false then ⟨-1, 0, 0, 0, []⟩
  else readLoop env (timeoutBudgetUs timeout_ms) 0 bytes

/-- The spec's slot invariant: the stored handle is valid (refers to an
open OS file) if and only if the slot's initialized flag is set. -/
def slotInvariant (s : UartState) : Prop :=
  ∀ i : Fin 6, s.handleValid i = s.initialized i

instance (s : UartState) : Decidable (slotInvariant s) := by
  unfold slotInvariant; infer_instance

/-- The state of the C globals at process start: both arrays are
zero-initialized and no handle is open. -/
def startState : UartState := ⟨fun _ => false, fun _ => 0, fun _ => false⟩

/-- A concrete state with bus 0 initialized on descriptor 3, for
instantiating theorems with hypotheses. -/
def busZeroOpen : UartState :=
  ⟨setB (fun _ => false) 0 true, setI (fun _ => 0) 0 3,
   setB (fun _ => false) 0 true⟩

/-- A syscall environment for `initialize_uart` where `open` succeeds
(descriptor 3) but `tcsetattr` fails. -/
def cfgFailEnv : InitEnv := ⟨3, 0, 0, -1, 0⟩

/-- A syscall environment for `initialize_uart` where every call
succeeds (`open` yields descriptor 3). -/
def allOkEnv : InitEnv := ⟨3, 0, 0, 0, 0⟩

/-! ## Helper lemmas -/

/-- Exact accounting of the depleting budget: across one whole run of the
read loop, the time spent waiting plus the budget left at return equals
the budget the loop started with. -/
theorem readLoop_wait_accounting (steps : List Step) (tleft : Nat) (br bl : Int) :
    (readLoop steps tleft br bl).totalWait +
      (readLoop steps tleft br bl).timeoutLeft = tleft := by
  induction steps generalizing tleft br bl with
  | nil =>
    by_cases hbl : bl ≤ 0 <;> simp [readLoop, hbl]
  | cons step rest ih =>
    by_cases hbl : bl ≤ 0
    · simp [readLoop, hbl]
    · by_cases hex : step.exiting
      · simp [readLoop, hbl, hex]
      · rcases houtcome : step.outcome with _ | _ | _ | readRet
        · simp [readLoop, hbl, hex, houtcome]
        · simp [readLoop, hbl, hex, houtcome]
        · simp [readLoop, hbl, hex, houtcome]
        · by_cases hr : readRet < 0
          · simp [readLoop, hbl, hex, houtcome, hr]
          · simp [readLoop, hbl, hex, houtcome, hr]
            have := ih (tleft - min step.elapsed tleft)
              (br + min readRet bl) (bl - min readRet bl)
            omega

/-- The microsecond budget equals `timeout_ms * 1000` for a non-negative
`timeout_ms` (the `tv_sec`/`tv_usec` split loses nothing). -/
theorem timeoutBudgetUs_eq (timeout_ms : Int) (h : 0 ≤ timeout_ms) :
    timeoutBudgetUs timeout_ms = timeout_ms.toNat * 1000 := by
  unfold timeoutBudgetUs; omega

/-- `close_uart` preserves the slot invariant on every path. -/
theorem close_uart_preserves_slotInvariant (s : UartState) (bus : Int)
    (hs : slotInvariant s) : slotInvariant (close_uart s bus).1 := by
  unfold close_uart
  rcases Decidable.em (bus < MIN_BUS ∨ bus > MAX_BUS) with hrange | hrange
  · rw [if_pos hrange]; exact hs
  · rw [if_neg hrange]
    rcases Decidable.em (s.initialized (busFin bus) = false) with hinit | hinit
    · rw [if_pos hinit]; exact hs
    · rw [if_neg hinit]
      intro j
      by_cases hj : j = busFin bus
      · simp [setB, hj]
      · simp [setB, hj]; exact hs j

/-- After an in-range `close_uart`, the slot's initialized flag is
cleared. -/
theorem close_uart_clears_flag (s : UartState) (bus : Int)
    (hrange : ¬(bus < MIN_BUS ∨ bus > MAX_BUS)) :
    (close_uart s bus).1.initialized (busFin bus) = false := by
  unfold close_uart
  rw [if_neg hrange]
  rcases Decidable.em (s.initialized (busFin bus) = false) with hinit | hinit
  · rw [if_pos hinit]; exact hinit
  · rw [if_neg hinit]; simp [setB]

/-! ## Claim theorems -/

/-- C1: in `uart_read_bytes` the timeout is computed from `timeout_ms`
once before the read loop (`timeoutBudgetUs`, microseconds) and then
treated as a depleting budget: each `select` waits on the current
remaining budget, which is decremented by the elapsed time, never reset;
so the total wait time across all iterations of a single call never
exceeds the originally requested `timeout_ms`. -/
theorem uart_read_bytes_total_wait_bounded (env : List Step) (s : UartState)
    (bus bytes timeout_ms : Int) (h : 0 ≤ timeout_ms) :
    (uart_read_bytes env s bus bytes timeout_ms).totalWait ≤
      timeout_ms.toNat * 1000 := by
  unfold uart_read_bytes
  split
  · simp
  · split
    · simp
    · split
      · simp
      · have hacc := readLoop_wait_accounting env (timeoutBudgetUs timeout_ms) 0 bytes
        have hbud := timeoutBudgetUs_eq timeout_ms h
        omega

/-- C1 witness: a two-iteration run (one byte read after 2000 µs, then a
timeout) against a 5 ms budget waits at most 5000 µs in total. -/
theorem uart_read_bytes_total_wait_bounded_witness :
    (0 : Int) ≤ 5 ∧
    (uart_read_bytes [⟨false, 2000, SelectOutcome.ready 1⟩,
        ⟨false, 1000, SelectOutcome.timeout⟩] busZeroOpen 0 2 5).totalWait ≤
      (5 : Int).toNat * 1000 :=
  ⟨by decide,
   uart_read_bytes_total_wait_bounded
     [⟨false, 2000, SelectOutcome.ready 1⟩, ⟨false, 1000, SelectOutcome.timeout⟩]
     busZeroOpen 0 2 5 (by decide)⟩

/-- C2: at any iteration of the read loop of `uart_read_bytes` (any
`bytes_read` so far, any remaining need and budget), if `select` fails
with `errno == EINTR` the call returns the bytes read so far as a
non-negative success; if `select` fails with any other `errno` the call
returns `-1`, discarding the partial count from the result. -/
theorem uart_read_bytes_select_error_handling (step : Step) (rest : List Step)
    (tleft : Nat) (br bl : Int) (hbl : 0 < bl) (hex : step.exiting = false)
    (hbr : 0 ≤ br) :
    (step.outcome = SelectOutcome.errEINTR →
      (readLoop (step :: rest) tleft br bl).ret = br ∧
      0 ≤ (readLoop (step :: rest) tleft br bl).ret) ∧
    (step.outcome = SelectOutcome.errOther →
      (readLoop (step :: rest) tleft br bl).ret = -1) := by
  constructor
  · intro houtcome
    simp [readLoop, hex, houtcome, show ¬ bl ≤ 0 by omega]
    exact hbr
  · intro houtcome
    simp [readLoop, hex, houtcome, show ¬ bl ≤ 0 by omega]

/-- C2 witness: with one byte already read, an `EINTR` failure returns 1
(a success) at a concrete iteration. -/
theorem uart_read_bytes_select_error_handling_witness :
    (0 : Int) < 1 ∧ (Step.mk false 100 SelectOutcome.errEINTR).exiting = false ∧
    (0 : Int) ≤ 1 ∧
    ((readLoop [⟨false, 100, SelectOutcome.errEINTR⟩] 4000 1 1).ret = 1 ∧
      0 ≤ (readLoop [⟨false, 100, SelectOutcome.errEINTR⟩] 4000 1 1).ret) :=
  ⟨by decide, by decide, by decide,
   (uart_read_bytes_select_error_handling ⟨false, 100, SelectOutcome.errEINTR⟩
     [] 4000 1 1 (by decide) (by decide) (by decide)).1 rfl⟩

/-- C3: at any iteration of the read loop of `uart_read_bytes`, a
`select` timeout is not an error: the call returns exactly the count of
bytes read so far (0 when nothing was read yet), a non-negative success. -/
theorem uart_read_bytes_timeout_not_error (step : Step) (rest : List Step)
    (tleft : Nat) (br bl : Int) (hbl : 0 < bl) (hex : step.exiting = false)
    (hbr : 0 ≤ br) (houtcome : step.outcome = SelectOutcome.timeout) :
    (readLoop (step :: rest) tleft br bl).ret = br ∧
    0 ≤ (readLoop (step :: rest) tleft br bl).ret := by
  simp [readLoop, hex, houtcome, show ¬ bl ≤ 0 by omega]
  exact hbr

/-- C3 witness: a timeout with zero bytes read returns 0 at a concrete
iteration. -/
theorem uart_read_bytes_timeout_not_error_witness :
    (0 : Int) < 4 ∧ (Step.mk false 0 SelectOutcome.timeout).exiting = false ∧
    (0 : Int) ≤ 0 ∧
    ((readLoop [⟨false, 0, SelectOutcome.timeout⟩] 7000 0 4).ret = 0 ∧
      0 ≤ (readLoop [⟨false, 0, SelectOutcome.timeout⟩] 7000 0 4).ret) :=
  ⟨by decide, by decide, by decide,
   uart_read_bytes_timeout_not_error ⟨false, 0, SelectOutcome.timeout⟩
     [] 7000 0 4 (by decide) (by decide) (by decide) rfl⟩

/-- C4: if the read loop of `uart_read_bytes` exits because `get_state()`
observed `EXITING` at the loop head while bytes were still wanted, the
call returns the number of bytes read so far as a non-negative success. -/
theorem uart_read_bytes_exiting_returns_partial (step : Step) (rest : List Step)
    (tleft : Nat) (br bl : Int) (hbl : 0 < bl) (hbr : 0 ≤ br)
    (hex : step.exiting = true) :
    (readLoop (step :: rest) tleft br bl).ret = br ∧
    0 ≤ (readLoop (step :: rest) tleft br bl).ret := by
  simp [readLoop, hex, show ¬ bl ≤ 0 by omega]
  exact hbr

/-- C4 witness: `EXITING` observed with two bytes read and two still
wanted returns 2. -/
theorem uart_read_bytes_exiting_returns_partial_witness :
    (0 : Int) < 2 ∧ (0 : Int) ≤ 2 ∧
    ((readLoop [⟨true, 0, SelectOutcome.timeout⟩] 900 2 2).ret = 2 ∧
      0 ≤ (readLoop [⟨true, 0, SelectOutcome.timeout⟩] 900 2 2).ret) :=
  ⟨by decide, by decide,
   uart_read_bytes_exiting_returns_partial ⟨true, 0, SelectOutcome.timeout⟩
     [] 900 2 2 (by decide) (by decide) rfl⟩

/-- C5 counterexample: starting from the process-start state (invariant
holds), `initialize_uart` on bus 0 at 9600 baud with a successful `open`
and a failing `tcsetattr` returns `-1` and leaves a state violating the
invariant — the freshly opened handle stays open while `initialized[0]`
stays 0, so "handle valid iff initialized" fails on this failure path. -/
theorem slotInvariant_config_failure_counterexample :
    slotInvariant startState ∧
    (initialize_uart cfgFailEnv startState 0 9600).2.1 = -1 ∧
    ¬ slotInvariant (initialize_uart cfgFailEnv startState 0 9600).1 :=
  ⟨by decide, by decide, by decide⟩

/-- C5 amended: the slot invariant is preserved by `close_uart` on every
path, and by `initialize_uart` on every path except the configuration
failures after a successful `open` — that is, whenever a successful
`open` implies `cfsetispeed`, `cfsetospeed` and `tcsetattr` all succeed.
The read, write, flush and get-fd operations take the registry read-only
and cannot disturb the invariant. -/
theorem slotInvariant_preserved_amended (s : UartState) (env : InitEnv)
    (bus baudrate : Int) (hs : slotInvariant s)
    (henv : 0 ≤ env.openRet →
      0 ≤ env.cfsetispeedRet ∧ 0 ≤ env.cfsetospeedRet ∧ 0 ≤ env.tcsetattrRet) :
    slotInvariant (close_uart s bus).1 ∧
    slotInvariant (initialize_uart env s bus baudrate).1 := by
  refine ⟨close_uart_preserves_slotInvariant s bus hs, ?_⟩
  unfold initialize_uart
  rcases Decidable.em (bus < MIN_BUS ∨ bus > MAX_BUS) with hrange | hrange
  · rw [if_pos hrange]; exact hs
  · rw [if_neg hrange]
    rcases Decidable.em (validBaud baudrate = false) with hbaud | hbaud
    · rw [if_pos hbaud]; exact hs
    · rw [if_neg hbaud]
      have hclosed := close_uart_preserves_slotInvariant s bus hs
      have hflag := close_uart_clears_flag s bus hrange
      unfold openAndConfigure
      rcases Decidable.em (env.openRet < 0) with hopen | hopen
      · rw [if_pos hopen]
        intro j
        by_cases hj : j = busFin bus
        · simp [storeOpenResult, setB, hj, hflag]
          omega
        · simp [storeOpenResult, setB, hj]; exact hclosed j
      · have hcfg := henv (by omega)
        rw [if_neg hopen, if_neg (by omega), if_neg (by omega), if_neg (by omega)]
        intro j
        by_cases hj : j = busFin bus
        · simp [markInitialized, storeOpenResult, setB, hj]
          omega
        · simp [markInitialized, storeOpenResult, setB, hj]; exact hclosed j

/-- An in-range `close_uart` of an uninitialized slot is a no-op success. -/
theorem close_uart_noop (s : UartState) (bus : Int)
    (hrange : ¬(bus < MIN_BUS ∨ bus > MAX_BUS))
    (hinit : s.initialized (busFin bus) = false) :
    close_uart s bus = (s, 0, []) := by
  unfold close_uart; rw [if_neg hrange, if_pos hinit]

/-- C5 amended witness: a fully successful `initialize_uart` on bus 0 at
115200 baud from the process-start state preserves the invariant. -/
theorem slotInvariant_preserved_amended_witness :
    slotInvariant startState ∧
    ((0 : Int) ≤ (3 : Int) → 0 ≤ (0 : Int) ∧ 0 ≤ (0 : Int) ∧ 0 ≤ (0 : Int)) ∧
    (slotInvariant (close_uart startState 0).1 ∧
      slotInvariant (initialize_uart ⟨3, 0, 0, 0, 0⟩ startState 0 115200).1) :=
  ⟨by decide, by decide,
   slotInvariant_preserved_amended startState ⟨3, 0, 0, 0, 0⟩ 0 115200
     (by decide) (by decide)⟩

/-- C6: for every baud rate outside the enumerated set of accepted rates,
`initialize_uart` returns `-1`, leaves the prior bus state (initialized
flags and handles) unchanged, and performs no I/O — the `switch` hits
`default` before `close_uart`, `open` or any configuration call runs. -/
theorem initialize_uart_invalid_baud (env : InitEnv) (s : UartState)
    (bus baudrate : Int) (h : validBaud baudrate = false) :
    initialize_uart env s bus baudrate = (s, -1, []) := by
  unfold initialize_uart
  rcases Decidable.em (bus < MIN_BUS ∨ bus > MAX_BUS) with hrange | hrange
  · rw [if_pos hrange]
  · rw [if_neg hrange, if_pos h]

/-- C6 witness: baud rate 12345 is rejected with the state untouched and
no I/O performed. -/
theorem initialize_uart_invalid_baud_witness :
    validBaud 12345 = false ∧
    initialize_uart allOkEnv busZeroOpen 0 12345 = (busZeroOpen, -1, []) :=
  ⟨by decide, initialize_uart_invalid_baud allOkEnv busZeroOpen 0 12345 (by decide)⟩

/-- C7: for every bus index outside `MIN_BUS..MAX_BUS`, all seven
operations return `-1`, perform no I/O, and leave the registry state
unchanged. -/
theorem out_of_range_bus_rejected (s : UartState) (env : InitEnv)
    (envR : List Step) (tcflushRet writeRet writeByteRet : Int)
    (bus baudrate nbytes timeout_ms : Int)
    (h : bus < MIN_BUS ∨ bus > MAX_BUS) :
    initialize_uart env s bus baudrate = (s, -1, []) ∧
    close_uart s bus = (s, -1, []) ∧
    get_uart_fd s bus = (-1, []) ∧
    flush_uart tcflushRet s bus = (-1, []) ∧
    uart_send_bytes writeRet s bus nbytes = (-1, []) ∧
    uart_send_byte writeByteRet s bus = (-1, []) ∧
    uart_read_bytes envR s bus nbytes timeout_ms = ⟨-1, 0, 0, 0, []⟩ := by
  refine ⟨?_, ?_, ?_, ?_, ?_, ?_, ?_⟩ <;>
    simp only [initialize_uart, close_uart, get_uart_fd, flush_uart,
      uart_send_bytes, uart_send_byte, uart_read_bytes, if_pos h]

/-- C7 witness: bus index 7 is rejected by every operation with no I/O
and no state change. -/
theorem out_of_range_bus_rejected_witness :
    ((7 : Int) < MIN_BUS ∨ (7 : Int) > MAX_BUS) ∧
    (initialize_uart allOkEnv busZeroOpen 7 9600 = (busZeroOpen, -1, []) ∧
      close_uart busZeroOpen 7 = (busZeroOpen, -1, []) ∧
      get_uart_fd busZeroOpen 7 = (-1, []) ∧
      flush_uart 0 busZeroOpen 7 = (-1, []) ∧
      uart_send_bytes 1 busZeroOpen 7 1 = (-1, []) ∧
      uart_send_byte 1 busZeroOpen 7 = (-1, []) ∧
      uart_read_bytes [] busZeroOpen 7 1 100 = ⟨-1, 0, 0, 0, []⟩) :=
  ⟨by decide,
   out_of_range_bus_rejected busZeroOpen allOkEnv [] 0 1 1 7 9600 1 100 (by decide)⟩

/-- C8: for every in-range bus index, `close_uart` on an uninitialized
slot succeeds as a no-op leaving all state unchanged, and a second
`close_uart` right after a first one succeeds leaving the state exactly
as the first left it (idempotence). -/
theorem close_uart_noop_and_idempotent (s : UartState) (bus : Int)
    (h1 : MIN_BUS ≤ bus) (h2 : bus ≤ MAX_BUS) :
    (s.initialized (busFin bus) = false → close_uart s bus = (s, 0, [])) ∧
    close_uart (close_uart s bus).1 bus = ((close_uart s bus).1, 0, []) := by
  have hrange : ¬(bus < MIN_BUS ∨ bus > MAX_BUS) :=
    not_or.mpr ⟨not_lt.mpr h1, not_lt.mpr h2⟩
  exact ⟨fun hinit => close_uart_noop s bus hrange hinit,
    close_uart_noop _ bus hrange (close_uart_clears_flag s bus hrange)⟩

/-- C8 witness: on bus 0, closing the never-opened start state is a
no-op, and closing twice from an initialized state equals closing once. -/
theorem close_uart_noop_and_idempotent_witness :
    MIN_BUS ≤ (0 : Int) ∧ (0 : Int) ≤ MAX_BUS ∧
    ((startState.initialized (busFin 0) = false →
        close_uart startState 0 = (startState, 0, [])) ∧
      close_uart (close_uart startState 0).1 0 = ((close_uart startState 0).1, 0, [])) :=
  ⟨by decide, by decide, close_uart_noop_and_idempotent startState 0 (by decide) (by decide)⟩

/-- C9: with an in-range bus, `uart_read_bytes` with `bytes < 1` and
`uart_send_bytes` with `bytes < 1` both return `-1` before any I/O is
performed (the guard precedes the initialization check and all system
calls). -/
theorem short_byte_count_rejected (s : UartState) (envR : List Step)
    (writeRet bus nbytes timeout_ms : Int)
    (h1 : MIN_BUS ≤ bus) (h2 : bus ≤ MAX_BUS) (h : nbytes < 1) :
    uart_read_bytes envR s bus nbytes timeout_ms = ⟨-1, 0, 0, 0, []⟩ ∧
    uart_send_bytes writeRet s bus nbytes = (-1, []) := by
  have hrange : ¬(bus < MIN_BUS ∨ bus > MAX_BUS) :=
    not_or.mpr ⟨not_lt.mpr h1, not_lt.mpr h2⟩
  constructor
  · unfold uart_read_bytes; rw [if_neg hrange, if_pos h]
  · unfold uart_send_bytes; rw [if_neg hrange, if_pos h]

/-- C9 witness: a zero-byte request on bus 0 is rejected by both the read
and the send path with no I/O. -/
theorem short_byte_count_rejected_witness :
    MIN_BUS ≤ (0 : Int) ∧ (0 : Int) ≤ MAX_BUS ∧ (0 : Int) < 1 ∧
    (uart_read_bytes [] busZeroOpen 0 0 100 = ⟨-1, 0, 0, 0, []⟩ ∧
      uart_send_bytes 1 busZeroOpen 0 0 = (-1, [])) :=
  ⟨by decide, by decide, by decide,
   short_byte_count_rejected busZeroOpen [] 1 0 0 100 (by decide) (by decide) (by decide)⟩

/-- C10: for an in-range, initialized bus and `bytes ≥ 1`, if
`get_state()` already observes `EXITING` at the first loop-head check,
`uart_read_bytes` returns 0 with no `select` wait and no `read` call
(empty I/O list, zero bytes read, so the destination buffer is never
written), leaving the whole timeout budget unspent. -/
theorem uart_read_bytes_exiting_at_entry (s : UartState) (step : Step)
    (rest : List Step) (bus nbytes timeout_ms : Int)
    (h1 : MIN_BUS ≤ bus) (h2 : bus ≤ MAX_BUS)
    (hinit : s.initialized (busFin bus) = true)
    (hbytes : 1 ≤ nbytes) (hex : step.exiting = true) :
    uart_read_bytes (step :: rest) s bus nbytes timeout_ms =
      ⟨0, 0, 0, timeoutBudgetUs timeout_ms, []⟩ := by
  have hrange : ¬(bus < MIN_BUS ∨ bus > MAX_BUS) :=
    not_or.mpr ⟨not_lt.mpr h1, not_lt.mpr h2⟩
  unfold uart_read_bytes
  rw [if_neg hrange, if_neg (by omega), if_neg (by simp [hinit])]
  simp [readLoop, hex, show ¬ nbytes ≤ 0 by omega]

/-- C10 witness: entering with `EXITING` already observed on bus 0
returns 0 immediately with no I/O. -/
theorem uart_read_bytes_exiting_at_entry_witness :
    MIN_BUS ≤ (0 : Int) ∧ (0 : Int) ≤ MAX_BUS ∧
    busZeroOpen.initialized (busFin 0) = true ∧ (1 : Int) ≤ 4 ∧
    (Step.mk true 0 SelectOutcome.timeout).exiting = true ∧
    uart_read_bytes [⟨true, 0, SelectOutcome.timeout⟩] busZeroOpen 0 4 250 =
      ⟨0, 0, 0, timeoutBudgetUs 250, []⟩ :=
  ⟨by decide, by decide, by decide, by decide, by decide,
   uart_read_bytes_exiting_at_entry busZeroOpen ⟨true, 0, SelectOutcome.timeout⟩
     [] 0 4 250 (by decide) (by decide) (by decide) (by decide) rfl⟩

end SimpleUart
